import Mathlib

set_option maxRecDepth 100000

/-!
Verification of the Beartooth demo core (`beartooth.py`).

The source builds a QUBO over `2 * (n - 1)` binary variables from a fixed
`n × n` landscape of altitudes (`n = 10`), using a unary encoding of each
coordinate, and decodes solver samples back into coordinates with
occurrence counts.  Python dictionaries are embedded as insertion-ordered
association lists (`dinsertI` / `dincr` model `d[k] = v` and `d[k] += n`),
samples as functions from variable index to bit, and the fallible
generalized builder returns `Except PyErr` to model Python exceptions.
-/

/-- The constant `ENCODING_BIAS = 5` from the source. -/
def ENCODING_BIAS : Int := 5

/-- The fixed 10 × 10 altitude grid `LANDSCAPE` from the source. -/
def LANDSCAPE : List (List Int) :=
  [ [ 4, 3, 2, 2, 3, 2, 3, 4, 4, 5 ],
    [ 3, 2, 1, 2, 2, 2, 2, 3, 4, 6 ],
    [ 3, 2, 0, 1, 2, 2, 3, 3, 5, 7 ],
    [ 3, 2, 1, 1, 2, 2, 3, 5, 7, 8 ],
    [ 3, 2, 1, 2, 3, 4, 4, 6, 7, 7 ],
    [ 2, 2, 3, 4, 4, 5, 6, 7, 6, 5 ],
    [ 2, 3, 3, 4, 5, 7, 7, 6, 5, 4 ],
    [ 4, 5, 5, 6, 6, 9, 8, 7, 5, 4 ],
    [ 5, 6, 6, 7, 8, 8, 7, 7, 6, 5 ],
    [ 7, 7, 8, 9, 9, 9, 8, 8, 6, 5 ] ]

/-- The fixed embedding `EMBEDDING` from the source: one group of physical
nodes per logical variable. -/
def EMBEDDING : List (List Nat) :=
  [ [122, 218, 222, 314], [113, 209, 305, 309, 317], [104, 200, 296, 301],
    [107, 203, 205, 299], [114, 210, 213, 306], [115, 211, 307],
    [123, 215, 219, 223, 315], [105, 201, 207, 297], [106, 202, 298],
    [302, 310, 318], [300, 308, 312, 316], [204, 212, 216, 220],
    [206, 208, 214], [111, 112, 119, 127], [108, 116, 120, 124],
    [110, 118, 126], [109, 117, 121, 125], [217, 303, 311, 313, 319] ]

/-- `f(x, y)`: the altitude `LANDSCAPE[x][y]` (all accesses in the source are
in bounds for the fixed grid). -/
def landAt (x y : Nat) : Int := (LANDSCAPE.getD x []).getD y 0

/-- `_x_shift(x) = LANDSCAPE[x + 1][0] - LANDSCAPE[x][0]`. -/
def _x_shift (x : Nat) : Int := landAt (x + 1) 0 - landAt x 0

/-- `_y_shift(y) = LANDSCAPE[0][y + 1] - LANDSCAPE[0][y]`. -/
def _y_shift (y : Nat) : Int := landAt 0 (y + 1) - landAt 0 y

/-- `_angle_shift(x, y)` from the source. -/
def _angle_shift (x y : Nat) : Int :=
  landAt (x + 1) (y + 1) - landAt x (y + 1) - landAt (x + 1) y + landAt x y

/-- `num_vars = len(LANDSCAPE) - 1`. -/
def num_vars : Nat := LANDSCAPE.length - 1

/-- `x_vars = list(range(0, num_vars))`. -/
def x_vars : List Nat := List.range num_vars

/-- `y_vars = list(range(num_vars, 2 * num_vars))`. -/
def y_vars : List Nat := List.range' num_vars num_vars

/-- Python list indexing `l[i]` for the in-bounds accesses of the source. -/
def pyNth (l : List Nat) (i : Nat) : Nat := l.getD i 0

/-- Python dict assignment `d[k] = v` on an insertion-ordered association
list: overwrite the entry of an existing key in place, else append. -/
def dinsertI (d : List ((Nat × Nat) × Int)) (k : Nat × Nat) (v : Int) :
    List ((Nat × Nat) × Int) :=
  match d with
  | [] => [(k, v)]
  | e :: rest => if e.1 = k then (k, v) :: rest else e :: dinsertI rest k v

/-- Python `d.update(entries)`: assign each entry in iteration order. -/
def dupdate (d : List ((Nat × Nat) × Int)) (entries : List ((Nat × Nat) × Int)) :
    List ((Nat × Nat) × Int) :=
  entries.foldl (fun acc e => dinsertI acc e.1 e.2) d

/-- A Python dict comprehension: insert the generated entries into an empty
dict in iteration order. -/
def dictOf (entries : List ((Nat × Nat) × Int)) : List ((Nat × Nat) × Int) :=
  dupdate [] entries

/-- First pass of `_get_qubo`: the x-block diagonal terms
`{(x_vars[x], x_vars[x]): ENCODING_BIAS + _x_shift(x) for x in range(1, num_vars)}`,
with the bias `B` kept as a parameter. -/
def quboPassXDiag (B : Int) : List ((Nat × Nat) × Int) :=
  (List.range' 1 (num_vars - 1)).map
    (fun x => ((pyNth x_vars x, pyNth x_vars x), B + _x_shift x))

/-- The y-block diagonal pass of `_get_qubo` (for `y in range(1, num_vars)`). -/
def quboPassYDiag (B : Int) : List ((Nat × Nat) × Int) :=
  (List.range' 1 (num_vars - 1)).map
    (fun y => ((pyNth y_vars y, pyNth y_vars y), B + _y_shift y))

/-- The cross-term pass of `_get_qubo`:
`{(x_vars[x], y_vars[y]): _angle_shift(x, y) for x in range(num_vars) for y in range(num_vars)}`. -/
def quboPassCross : List ((Nat × Nat) × Int) :=
  (List.range num_vars).flatMap
    (fun x => (List.range num_vars).map
      (fun y => ((pyNth x_vars x, pyNth y_vars y), _angle_shift x y)))

/-- The x-block adjacent-coupling pass of `_get_qubo`:
`{(x_vars[x], x_vars[x - 1]): -ENCODING_BIAS for x in range(1, num_vars)}`. -/
def quboPassXCouple (B : Int) : List ((Nat × Nat) × Int) :=
  (List.range' 1 (num_vars - 1)).map
    (fun x => ((pyNth x_vars x, pyNth x_vars (x - 1)), -B))

/-- The y-block adjacent-coupling pass of `_get_qubo`. -/
def quboPassYCouple (B : Int) : List ((Nat × Nat) × Int) :=
  (List.range' 1 (num_vars - 1)).map
    (fun y => ((pyNth y_vars y, pyNth y_vars (y - 1)), -B))

/-- `_get_qubo` with the constant `ENCODING_BIAS` kept as a parameter `B`:
the five dictionary-building passes of the source, in source order, with
Python dict semantics. -/
def quboBuild (B : Int) : List ((Nat × Nat) × Int) :=
  let Q := dictOf (quboPassXDiag B)
  let Q := dinsertI Q (pyNth x_vars 0, pyNth x_vars 0) (_x_shift 0)
  let Q := dupdate Q (quboPassYDiag B)
  let Q := dinsertI Q (pyNth y_vars 0, pyNth y_vars 0) (_y_shift 0)
  let Q := dupdate Q quboPassCross
  let Q := dupdate Q (quboPassXCouple B)
  dupdate Q (quboPassYCouple B)

/-- `_get_qubo()` from the source: `quboBuild` at the source's constant bias. -/
def _get_qubo : List ((Nat × Nat) × Int) := quboBuild ENCODING_BIAS

/-- Modelled from the spec: the indicator value of one bit of a sample
(`1` if the bit is set, else `0`), used to evaluate a QUBO analytically;
the source never evaluates QUBO energies itself (the solver does). -/
def bit (b : Nat → Bool) (i : Nat) : Int := if b i then 1 else 0

/-- Modelled from the spec: the QUBO energy of a bit-vector — the sum of
every coefficient whose variable pair has both bits set. -/
def quboEnergy (Q : List ((Nat × Nat) × Int)) (b : Nat → Bool) : Int :=
  (Q.map (fun e => bit b e.1.1 * bit b e.1.2 * e.2)).sum

/-- Modelled from the spec: the canonical unary encoding of coordinates
`(x, y)` — bits `0 .. x-1` of the x-block and bits `9 .. 9+y-1` of the
y-block set, all other bits clear. -/
def canon (x y : Nat) : Nat → Bool :=
  fun i => decide (i < x) || (decide (9 ≤ i) && decide (i < 9 + y))

/-- The loop body of `_parse_coord`: `v` is the running `enumerate` counter,
the list holds the remaining variable indices, and the final argument is the
running `coord`.  A set bit at list position `v > 0` whose sample bit at
`v_index - 1` is clear aborts with `None`. -/
def parseCoordAux (sample : Nat → Bool) : Nat → List Nat → Nat → Option Nat
  | _, [], coord => some coord
  | v, vi :: rest, coord =>
    if sample vi = true then
      if v ≠ 0 ∧ sample (vi - 1) = false then none
      else parseCoordAux sample (v + 1) rest (v + 1)
    else parseCoordAux sample (v + 1) rest coord

/-- `_parse_coord(sample, variables)` from the source. -/
def _parse_coord (sample : Nat → Bool) (variableList : List Nat) : Option Nat :=
  parseCoordAux sample 0 variableList 0

/-- Python defaultdict lookup with default `0` on the result table. -/
def dget (d : List ((Nat × Nat) × Nat)) (k : Nat × Nat) : Nat :=
  match d with
  | [] => 0
  | e :: rest => if e.1 = k then e.2 else dget rest k

/-- Python `d[k] += n` on a `defaultdict(int)` result table: add to the
entry of an existing key in place, else append the key with value `n`. -/
def dincr (d : List ((Nat × Nat) × Nat)) (k : Nat × Nat) (n : Nat) :
    List ((Nat × Nat) × Nat) :=
  match d with
  | [] => [(k, n)]
  | e :: rest => if e.1 = k then (e.1, e.2 + n) :: rest else e :: dincr rest k n

/-- `_interpret_sample` from the source: parse the x block, then the y
block; on either failure return the table unchanged, otherwise add the
occurrence count at `(x, y)`. -/
def _interpret_sample (t : List ((Nat × Nat) × Nat)) (s : (Nat → Bool) × Nat) :
    List ((Nat × Nat) × Nat) :=
  match _parse_coord s.1 x_vars with
  | none => t
  | some x =>
    match _parse_coord s.1 y_vars with
    | none => t
    | some y => dincr t (x, y) s.2

/-- `_interpret_samples` from the source: fold `_interpret_sample` over the
sample list starting from the empty table (the source's Python 2 `map` call
runs eagerly for its side effects). -/
def _interpret_samples (samples : List ((Nat → Bool) × Nat)) :
    List ((Nat × Nat) × Nat) :=
  samples.foldl _interpret_sample []

/-- The decoded coordinate pair of a sample, if both axes parse. -/
def sampleCoord (s : Nat → Bool) : Option (Nat × Nat) :=
  match _parse_coord s x_vars with
  | none => none
  | some x =>
    match _parse_coord s y_vars with
    | none => none
    | some y => some (x, y)

/-- The total occurrence count a sample list credits to coordinate `p`. -/
def credit (l : List ((Nat → Bool) × Nat)) (p : Nat × Nat) : Nat :=
  (l.map (fun s => if sampleCoord s.1 = some p then s.2 else 0)).sum

/-- The monotone-violation indicator at variable index `i`: bit `i` is set
while the bit at `i - 1` is clear.  The violating positions of the encoding
are x-block indices `1..8` and y-block indices `10..17`. -/
def violAt (b : Nat → Bool) (i : Nat) : Int := if b i && !(b (i - 1)) then 1 else 0

/-- The number of monotone-violation positions of a sample, over both axis
blocks. -/
def violCount (b : Nat → Bool) : Int :=
  ((List.range' 1 8 ++ List.range' 10 8).map (violAt b)).sum

/-- A sample violates the unary-encoding invariant on at least one axis:
some bit is set whose immediately preceding bit in the same axis block is
clear. -/
def invalidSample (b : Nat → Bool) : Prop :=
  ∃ i ∈ List.range' 1 8 ++ List.range' 10 8, b i = true ∧ b (i - 1) = false

/-- The counterexample sample for the penalty claim: x-block bit 7 set with
bit 6 clear (invalid on x), y-block holding the canonical encoding of 5. -/
def cexVec : Nat → Bool := fun i => decide (i = 7 ∨ (9 ≤ i ∧ i ≤ 13))

/-- An x-axis bit-vector read off the binary digits of `m < 2^9`. -/
def xbits (m : Nat) : Nat → Bool := fun i => m.testBit i

/-- A y-axis bit-vector: digit `j` of `m < 2^9` placed at variable index
`9 + j`. -/
def ybits (m : Nat) : Nat → Bool := fun i => m.testBit (i - 9)

/-- Python exceptions relevant to the generalized builder: the `IndexError`
a bad grid can raise, and the `ConfigurationError` of the spec's error
taxonomy (which the code never raises). -/
inductive PyErr where
  | indexError : PyErr
  | configurationError : PyErr
deriving DecidableEq, Repr

/-- Python indexing `row[j]` on an altitude row, raising `IndexError` when
out of range. -/
def pyCell (l : List Int) (j : Nat) : Except PyErr Int :=
  if j < l.length then Except.ok (l.getD j 0) else Except.error PyErr.indexError

/-- Python indexing `L[i]` on the grid, raising `IndexError` when out of
range. -/
def pyRow (L : List (List Int)) (i : Nat) : Except PyErr (List Int) :=
  if i < L.length then Except.ok (L.getD i []) else Except.error PyErr.indexError

/-- Python `L[i][j]`. -/
def pyAt (L : List (List Int)) (i j : Nat) : Except PyErr Int := do
  let r ← pyRow L i
  pyCell r j

/-- Python indexing into a variable list, raising `IndexError` when out of
range (hit by `x_vars[0]` on a too-small grid). -/
def pyIdx (l : List Nat) (i : Nat) : Except PyErr Nat :=
  if i < l.length then Except.ok (l.getD i 0) else Except.error PyErr.indexError

/-- `_x_shift` over an arbitrary grid, with Python index errors. -/
def xShiftL (L : List (List Int)) (x : Nat) : Except PyErr Int := do
  let a ← pyAt L (x + 1) 0
  let b ← pyAt L x 0
  pure (a - b)

/-- `_y_shift` over an arbitrary grid, with Python index errors. -/
def yShiftL (L : List (List Int)) (y : Nat) : Except PyErr Int := do
  let a ← pyAt L 0 (y + 1)
  let b ← pyAt L 0 y
  pure (a - b)

/-- `_angle_shift` over an arbitrary grid, with Python index errors. -/
def angleShiftL (L : List (List Int)) (x y : Nat) : Except PyErr Int := do
  let a ← pyAt L (x + 1) (y + 1)
  let b ← pyAt L x (y + 1)
  let c ← pyAt L (x + 1) y
  let d ← pyAt L x y
  pure (a - b - c + d)

/-- `_get_qubo` generalized to an arbitrary grid `L` in place of the fixed
`LANDSCAPE`, faithful to the source statement by statement: the only
failures it can produce are `IndexError`s from grid or variable-list
indexing; it contains no configuration check of any kind. -/
def quboBuildL (L : List (List Int)) : Except PyErr (List ((Nat × Nat) × Int)) := do
  let nv := L.length - 1
  let xs := List.range nv
  let ys := List.range' nv nv
  let Q ← (List.range' 1 (nv - 1)).foldlM (fun Q x => do
    let v ← xShiftL L x
    let i ← pyIdx xs x
    pure (dinsertI Q (i, i) (ENCODING_BIAS + v))) []
  let v0 ← xShiftL L 0
  let i0 ← pyIdx xs 0
  let Q := dinsertI Q (i0, i0) v0
  let Q ← (List.range' 1 (nv - 1)).foldlM (fun Q y => do
    let v ← yShiftL L y
    let j ← pyIdx ys y
    pure (dinsertI Q (j, j) (ENCODING_BIAS + v))) Q
  let w0 ← yShiftL L 0
  let j0 ← pyIdx ys 0
  let Q := dinsertI Q (j0, j0) w0
  let Q ← (List.range nv).foldlM (fun Q x =>
    (List.range nv).foldlM (fun Q y => do
      let v ← angleShiftL L x y
      let i ← pyIdx xs x
      let j ← pyIdx ys y
      pure (dinsertI Q (i, j) v)) Q) Q
  let Q ← (List.range' 1 (nv - 1)).foldlM (fun Q x => do
    let i ← pyIdx xs x
    let i' ← pyIdx xs (x - 1)
    pure (dinsertI Q (i, i') (-ENCODING_BIAS))) Q
  let Q ← (List.range' 1 (nv - 1)).foldlM (fun Q y => do
    let j ← pyIdx ys y
    let j' ← pyIdx ys (y - 1)
    pure (dinsertI Q (j, j') (-ENCODING_BIAS))) Q
  pure Q

/-- The error of an `Except` result, if any. -/
def errOf (e : Except PyErr (List ((Nat × Nat) × Int))) : Option PyErr :=
  match e with
  | Except.error err => some err
  | Except.ok _ => none

/-- A grid is square when every row is as long as the list of rows. -/
def isSquare (L : List (List Int)) : Prop := ∀ row ∈ L, row.length = L.length

instance (L : List (List Int)) : Decidable (isSquare L) :=
  inferInstanceAs (Decidable (∀ row ∈ L, row.length = L.length))

instance (b : Nat → Bool) : Decidable (invalidSample b) :=
  inferInstanceAs (Decidable (∃ i ∈ List.range' 1 8 ++ List.range' 10 8,
    b i = true ∧ b (i - 1) = false))

/-- Claim C1: for every coordinate pair `(x, y)` with `x, y < 10`, the QUBO
produced by `_get_qubo` evaluated on the canonical unary encoding of
`(x, y)` (summing every coefficient whose variable pair has both bits set)
equals `f(x, y) - f(0, 0)` exactly. -/
theorem telescoping_correct :
    ∀ x < 10, ∀ y < 10,
      quboEnergy _get_qubo (canon x y) = landAt x y - landAt 0 0 := by
  decide

/-- Witness for `telescoping_correct` at `(x, y) = (2, 2)`. -/
theorem telescoping_correct_witness :
    quboEnergy _get_qubo (canon 2 2) = landAt 2 2 - landAt 0 0 :=
  telescoping_correct 2 (by decide) 2 (by decide)

/-- Claim C3: decoder round-trip — for every coordinate `c < 10`, decoding
the canonical unary bit-vector of `c` with `_parse_coord` on either axis
block returns exactly `c`; in particular the all-zero bit-vector is valid
on both axes and decodes to coordinate `0`. -/
theorem decoder_roundtrip :
    (∀ c < 10,
      _parse_coord (canon c 0) x_vars = some c ∧
      _parse_coord (canon 0 c) y_vars = some c) ∧
    _parse_coord (fun _ => false) x_vars = some 0 ∧
    _parse_coord (fun _ => false) y_vars = some 0 := by
  decide

/-- Witness for `decoder_roundtrip` at `c = 7` on the x axis. -/
theorem decoder_roundtrip_witness :
    _parse_coord (canon 7 0) x_vars = some 7 :=
  (decoder_roundtrip.1 7 (by decide)).1

/-- Claim C4: over all `2^9` axis bit-vectors, `_parse_coord` returns the
invalid marker `none` whenever some bit at position `v > 0` is set with the
bit at `v - 1` clear (on either axis block), every monotone run of 1s from
the low end decodes to a coordinate in `{0, ..., 9}`, and there is no other
outcome: the result is `none` or `some c` with `c < 10`. -/
theorem decoder_rejects_and_total :
    ∀ m < 512,
      ((∃ v ∈ List.range 9, 0 < v ∧ m.testBit v = true ∧ m.testBit (v - 1) = false) →
        _parse_coord (xbits m) x_vars = none ∧ _parse_coord (ybits m) y_vars = none) ∧
      ((∀ v ∈ List.range 9, 0 < v → m.testBit v = true → m.testBit (v - 1) = true) →
        ∃ c ∈ List.range 10,
          _parse_coord (xbits m) x_vars = some c ∧ _parse_coord (ybits m) y_vars = some c) ∧
      (_parse_coord (xbits m) x_vars = none ∨
        ∃ c ∈ List.range 10, _parse_coord (xbits m) x_vars = some c) := by
  decide

/-- Witness for `decoder_rejects_and_total` at `m = 2` (bit 1 set, bit 0
clear: rejected on both axes). -/
theorem decoder_rejects_and_total_witness :
    _parse_coord (xbits 2) x_vars = none ∧ _parse_coord (ybits 2) y_vars = none :=
  (decoder_rejects_and_total 2 (by decide)).1 ⟨1, by decide⟩

/-- Claim C7, counterexample: the non-square grid `[[1,2,3],[4,5,6]]` does
not make the builder fail at all — `_get_qubo` generalized over the grid
returns a QUBO dictionary successfully, raising no `ConfigurationError`
(no such check exists anywhere in the code), contradicting the claim that
a non-square landscape is detected eagerly and fails. -/
theorem config_check_cex :
    ¬ isSquare [[1, 2, 3], [4, 5, 6]] ∧
    (quboBuildL [[1, 2, 3], [4, 5, 6]]).isOk = true ∧
    errOf (quboBuildL [[1, 2, 3], [4, 5, 6]]) = none := by
  decide

/-- Claim C7 (amended): the code performs no configuration validation and
never raises a `ConfigurationError`.  A non-square grid may be accepted
silently (a 2 by 3 grid yields a QUBO) or may abort mid-construction with
an `IndexError` (a 1 by 1 grid, i.e. side length below 2); the shipped
configuration itself satisfies the conditions the spec lists: `LANDSCAPE`
is square with side length `10 ≥ 2`, and `EMBEDDING` has exactly
`2 * (n - 1) = 18` groups.  On `LANDSCAPE` the generalized builder returns
exactly the dictionary `_get_qubo` computes. -/
theorem config_check_amended :
    (quboBuildL [[1, 2, 3], [4, 5, 6]]).isOk = true ∧
    errOf (quboBuildL [[1]]) = some PyErr.indexError ∧
    isSquare LANDSCAPE ∧
    2 ≤ LANDSCAPE.length ∧
    EMBEDDING.length = 2 * (LANDSCAPE.length - 1) ∧
    (quboBuildL LANDSCAPE).toOption = some _get_qubo := by
  decide

/-- Claim C9: the dictionary passes of `_get_qubo` never overwrite one
another — the dict build equals the plain concatenation of the passes
(x-diagonal, x0, y-diagonal, y0, cross terms, x-coupling, y-coupling), the
concatenated key list has no duplicates, and the final QUBO holds exactly
18 diagonal entries, 81 cross entries (ascending index pairs) and 16
adjacent-coupling entries (descending index pairs). -/
theorem qubo_passes_disjoint :
    _get_qubo =
      quboPassXDiag ENCODING_BIAS ++
      [((pyNth x_vars 0, pyNth x_vars 0), _x_shift 0)] ++
      quboPassYDiag ENCODING_BIAS ++
      [((pyNth y_vars 0, pyNth y_vars 0), _y_shift 0)] ++
      quboPassCross ++
      quboPassXCouple ENCODING_BIAS ++
      quboPassYCouple ENCODING_BIAS ∧
    (_get_qubo.map Prod.fst).Nodup ∧
    (_get_qubo.filter (fun e => e.1.1 == e.1.2)).length = 18 ∧
    (_get_qubo.filter (fun e => decide (e.1.1 < e.1.2))).length = 81 ∧
    (_get_qubo.filter (fun e => decide (e.1.2 < e.1.1))).length = 16 := by
  decide


/-- Lookup after a `defaultdict` increment: the entry at the incremented key
grows by `n`, every other entry is unchanged. -/
theorem dget_dincr (d : List ((Nat × Nat) × Nat)) (k p : Nat × Nat) (n : Nat) :
    dget (dincr d k n) p = dget d p + if p = k then n else 0 := by
  induction d with
  | nil =>
    by_cases h : p = k
    · subst h; simp [dincr, dget]
    · simp [dincr, dget, h, Ne.symm h]
  | cons e rest ih =>
    by_cases h1 : e.1 = k
    · subst h1
      by_cases h2 : p = e.1
      · subst h2; simp [dincr, dget]
      · simp [dincr, dget, h2, Ne.symm h2]
    · by_cases h2 : e.1 = p
      · subst h2; simp [dincr, dget, h1]
      · simp [dincr, dget, h1, h2, ih]

/-- Interpreting one sample adds its occurrence count at its decoded
coordinate pair (when both axes decode) and changes nothing else. -/
theorem dget_interpret_sample (t : List ((Nat × Nat) × Nat))
    (s : (Nat → Bool) × Nat) (p : Nat × Nat) :
    dget (_interpret_sample t s) p =
      dget t p + if sampleCoord s.1 = some p then s.2 else 0 := by
  unfold _interpret_sample sampleCoord
  cases hx : _parse_coord s.1 x_vars with
  | none => simp
  | some x =>
    cases hy : _parse_coord s.1 y_vars with
    | none => simp
    | some y =>
      rw [dget_dincr]
      by_cases h : p = (x, y)
      · simp [h]
      · simp [h, Ne.symm h]

/-- Folding the sample interpreter over a list adds exactly the credited
occurrence totals to every table entry. -/
theorem dget_foldl_interpret (l : List ((Nat → Bool) × Nat)) :
    ∀ (t : List ((Nat × Nat) × Nat)) (p : Nat × Nat),
      dget (l.foldl _interpret_sample t) p = dget t p + credit l p := by
  induction l with
  | nil => intro t p; simp [credit]
  | cons s l ih =>
    intro t p
    simp only [List.foldl_cons]
    rw [ih, dget_interpret_sample]
    simp only [credit, List.map_cons, List.sum_cons]
    ring

/-- Every entry of the result table equals the total occurrence count the
sample list credits to that coordinate. -/
theorem dget_interpret_samples (l : List ((Nat → Bool) × Nat)) (p : Nat × Nat) :
    dget (_interpret_samples l) p = credit l p := by
  unfold _interpret_samples
  rw [dget_foldl_interpret]
  simp [dget]

/-- Claim C5: a sample that decodes on one axis but fails on the other is
discarded whole — interpreting it returns the table unchanged (as a list),
so its occurrence count is added to no entry and every lookup is
unaffected. -/
theorem aggregator_discards_mixed (t : List ((Nat × Nat) × Nat))
    (s : Nat → Bool) (num : Nat)
    (h : (_parse_coord s x_vars = none ∧ (_parse_coord s y_vars).isSome = true) ∨
         ((_parse_coord s x_vars).isSome = true ∧ _parse_coord s y_vars = none)) :
    _interpret_sample t (s, num) = t ∧
    ∀ p, dget (_interpret_sample t (s, num)) p = dget t p := by
  have ht : _interpret_sample t (s, num) = t := by
    unfold _interpret_sample
    rcases h with ⟨hx, _⟩ | ⟨hx, hy⟩
    · simp [hx]
    · obtain ⟨x, hx1⟩ := Option.isSome_iff_exists.mp hx
      simp [hx1, hy]
  exact ⟨ht, fun p => by rw [ht]⟩

/-- Witness for `aggregator_discards_mixed`: a sample valid on x (all x
bits clear, coordinate 0) but invalid on y (bit 10 set, bit 9 clear)
leaves a concrete table unchanged. -/
theorem aggregator_discards_mixed_witness :
    _interpret_sample [((0, 0), 3)] (fun i => decide (i = 10), 7) = [((0, 0), 3)] ∧
    ∀ p, dget (_interpret_sample [((0, 0), 3)] (fun i => decide (i = 10), 7)) p =
      dget [((0, 0), 3)] p :=
  aggregator_discards_mixed [((0, 0), 3)] (fun i => decide (i = 10)) 7 (by decide)

/-- Claim C6: the aggregator is order-independent — permuting the sample
sequence leaves every entry of the result table unchanged, because
duplicate coordinates are summed and addition is commutative. -/
theorem aggregator_order_independent (l1 l2 : List ((Nat → Bool) × Nat))
    (h : l1.Perm l2) (p : Nat × Nat) :
    dget (_interpret_samples l1) p = dget (_interpret_samples l2) p := by
  rw [dget_interpret_samples, dget_interpret_samples]
  unfold credit
  exact (h.map _).sum_eq

/-- Witness for `aggregator_order_independent`: swapping two concrete
samples (one decoding to `(1, 0)`, one invalid) leaves the count at
`(1, 0)` unchanged. -/
theorem aggregator_order_independent_witness :
    dget (_interpret_samples
      [(fun i => decide (i = 0), 2), (fun i => decide (i = 1), 3)]) (1, 0) =
    dget (_interpret_samples
      [(fun i => decide (i = 1), 3), (fun i => decide (i = 0), 2)]) (1, 0) :=
  aggregator_order_independent _ _ (List.Perm.swap _ _ _) (1, 0)

/-- Claim C8: the result table is always well-formed — every lookup
succeeds (the defaultdict model returns a count for any coordinate, a
natural number, hence non-negative), the value at `p` is exactly the total
credited to `p`, a coordinate never credited by a valid sample reads zero,
and if every sample fails validation every lookup reads zero. -/
theorem table_wellformed (l : List ((Nat → Bool) × Nat)) (p : Nat × Nat) :
    dget (_interpret_samples l) p = credit l p ∧
    ((∀ s ∈ l, sampleCoord s.1 ≠ some p) → dget (_interpret_samples l) p = 0) ∧
    ((∀ s ∈ l, sampleCoord s.1 = none) → dget (_interpret_samples l) p = 0) := by
  have h2 : (∀ s ∈ l, sampleCoord s.1 ≠ some p) →
      dget (_interpret_samples l) p = 0 := by
    intro h
    rw [dget_interpret_samples]
    unfold credit
    apply List.sum_eq_zero
    intro v hv
    obtain ⟨s, hs, rfl⟩ := List.mem_map.mp hv
    simp [h s hs]
  refine ⟨dget_interpret_samples l p, h2, ?_⟩
  intro h
  exact h2 (fun s hs => by rw [h s hs]; exact fun hc => Option.noConfusion hc)

/-- Witness for `table_wellformed`: a single all-invalid sample (x-block
bit 1 set, bit 0 clear) yields a table reading zero at `(3, 3)`. -/
theorem table_wellformed_witness :
    dget (_interpret_samples [(fun i => decide (i = 1), 4)]) (3, 3) = 0 :=
  (table_wellformed [(fun i => decide (i = 1), 4)] (3, 3)).2.2 (by decide)

/-- Claim C10: decoding one axis depends only on that axis's own bits.
Two samples agreeing on every variable index of an axis block (and possibly
nowhere else — in particular the bit just below the y block's lowest index
may differ) parse identically on that axis, even though the code inspects
`sample[v_index - 1]` rather than the previous entry of the variable list:
for `v = 0` the predecessor is never read, and for `v > 0` it lies inside
the block. -/
theorem axis_decode_local (s1 s2 : Nat → Bool) :
    ((∀ i ∈ x_vars, s1 i = s2 i) →
      _parse_coord s1 x_vars = _parse_coord s2 x_vars) ∧
    ((∀ i ∈ y_vars, s1 i = s2 i) →
      _parse_coord s1 y_vars = _parse_coord s2 y_vars) := by
  have hx : x_vars = [0, 1, 2, 3, 4, 5, 6, 7, 8] := by decide
  have hy : y_vars = [9, 10, 11, 12, 13, 14, 15, 16, 17] := by decide
  constructor
  · intro h
    rw [hx] at h
    have e0 := h 0 (by decide)
    have e1 := h 1 (by decide)
    have e2 := h 2 (by decide)
    have e3 := h 3 (by decide)
    have e4 := h 4 (by decide)
    have e5 := h 5 (by decide)
    have e6 := h 6 (by decide)
    have e7 := h 7 (by decide)
    have e8 := h 8 (by decide)
    unfold _parse_coord
    rw [hx]
    simp [parseCoordAux, e0, e1, e2, e3, e4, e5, e6, e7, e8]
  · intro h
    rw [hy] at h
    have e9 := h 9 (by decide)
    have e10 := h 10 (by decide)
    have e11 := h 11 (by decide)
    have e12 := h 12 (by decide)
    have e13 := h 13 (by decide)
    have e14 := h 14 (by decide)
    have e15 := h 15 (by decide)
    have e16 := h 16 (by decide)
    have e17 := h 17 (by decide)
    unfold _parse_coord
    rw [hy]
    simp [parseCoordAux, e9, e10, e11, e12, e13, e14, e15, e16, e17]

/-- Witness for `axis_decode_local`: two samples differing at index 8 (the
last x-block bit, just below the y block) but agreeing on the y block parse
identically on the y axis. -/
theorem axis_decode_local_witness :
    _parse_coord (fun i => decide (i = 8 ∨ i = 9)) y_vars =
    _parse_coord (fun i => decide (i = 9)) y_vars :=
  (axis_decode_local (fun i => decide (i = 8 ∨ i = 9)) (fun i => decide (i = 9))).2
    (by decide)

/-- The bit indicator squares to itself. -/
theorem bit_sq (b : Nat → Bool) (i : Nat) : bit b i * bit b i = bit b i := by
  unfold bit
  cases h : b i <;> simp

/-- The violation indicator as a product of bit indicators. -/
theorem violAt_eq (b : Nat → Bool) (i : Nat) :
    violAt b i = bit b i * (1 - bit b (i - 1)) := by
  unfold violAt bit
  cases h1 : b i <;> cases h2 : b (i - 1) <;> simp [h1, h2]

/-- Violation indicators are non-negative. -/
theorem violAt_nonneg (b : Nat → Bool) (i : Nat) : 0 ≤ violAt b i := by
  unfold violAt
  split <;> simp

/-- A violating position in a list forces its indicator sum to be at least
one. -/
theorem one_le_sum_violAt (b : Nat → Bool) (l : List Nat) :
    ∀ i ∈ l, b i = true → b (i - 1) = false →
      1 ≤ (l.map (violAt b)).sum := by
  induction l with
  | nil => intro i hi; cases hi
  | cons a rest ih =>
    intro i hi h1 h0
    have hnn : 0 ≤ (rest.map (violAt b)).sum :=
      List.sum_nonneg (fun x hx => by
        obtain ⟨j, _, rfl⟩ := List.mem_map.mp hx
        exact violAt_nonneg b j)
    rcases List.mem_cons.mp hi with rfl | hmem
    · have hone : violAt b i = 1 := by unfold violAt; simp [h1, h0]
      simp only [List.map_cons, List.sum_cons, hone]
      linarith
    · have hrest := ih i hmem h1 h0
      have ha : 0 ≤ violAt b a := violAt_nonneg b a
      simp only [List.map_cons, List.sum_cons]
      linarith

/-- An invalid sample has at least one violation. -/
theorem violCount_pos (b : Nat → Bool) (h : invalidSample b) :
    1 ≤ violCount b := by
  obtain ⟨i, hmem, h1, h0⟩ := h
  exact one_le_sum_violAt b (List.range' 1 8 ++ List.range' 10 8) i hmem h1 h0

/-- The energy decomposition behind the encoding bias: for every sample,
the energy under the source constant `ENCODING_BIAS = 5` is the energy
under bias `0` plus `ENCODING_BIAS` per violating position. -/
theorem energy_split (b : Nat → Bool) :
    quboEnergy _get_qubo b =
      quboEnergy (quboBuild 0) b + ENCODING_BIAS * violCount b := by
  have h5 : _get_qubo =
    [((1, 1), 5), ((2, 2), 5), ((3, 3), 5), ((4, 4), 4), ((5, 5), 5), ((6, 6), 7), ((7, 7), 6), ((8,
      8), 7), ((0, 0), -1), ((10, 10), 4), ((11, 11), 5), ((12, 12), 6), ((13, 13), 4), ((14,
      14), 6), ((15, 15), 6), ((16, 16), 5), ((17, 17), 6), ((9, 9), -1), ((0, 9), 0), ((0, 10),
      0), ((0, 11), 1), ((0, 12), -1), ((0, 13), 1), ((0, 14), -1), ((0, 15), 0), ((0, 16), 1),
      ((0, 17), 1), ((1, 9), 0), ((1, 10), -1), ((1, 11), 0), ((1, 12), 1), ((1, 13), 0), ((1,
      14), 1), ((1, 15), -1), ((1, 16), 1), ((1, 17), 0), ((2, 9), 0), ((2, 10), 1), ((2, 11),
      -1), ((2, 12), 0), ((2, 13), 0), ((2, 14), 0), ((2, 15), 2), ((2, 16), 0), ((2, 17), -1),
      ((3, 9), 0), ((3, 10), 0), ((3, 11), 1), ((3, 12), 0), ((3, 13), 1), ((3, 14), -1), ((3,
      15), 0), ((3, 16), -1), ((3, 17), -1), ((4, 9), 1), ((4, 10), 2), ((4, 11), 0), ((4, 12),
      -1), ((4, 13), 0), ((4, 14), 1), ((4, 15), -1), ((4, 16), -2), ((4, 17), -1), ((5, 9), 1),
      ((5, 10), -1), ((5, 11), 0), ((5, 12), 1), ((5, 13), 1), ((5, 14), -1), ((5, 15), -2),
      ((5, 16), 0), ((5, 17), 0), ((6, 9), 0), ((6, 10), 0), ((6, 11), 0), ((6, 12), -1), ((6,
      13), 1), ((6, 14), -1), ((6, 15), 0), ((6, 16), -1), ((6, 17), 0), ((7, 9), 0), ((7, 10),
      0), ((7, 11), 0), ((7, 12), 1), ((7, 13), -3), ((7, 14), 0), ((7, 15), 1), ((7, 16), 1),
      ((7, 17), 0), ((8, 9), -1), ((8, 10), 1), ((8, 11), 0), ((8, 12), -1), ((8, 13), 0), ((8,
      14), 0), ((8, 15), 0), ((8, 16), -1), ((8, 17), 0), ((1, 0), -5), ((2, 1), -5), ((3, 2),
      -5), ((4, 3), -5), ((5, 4), -5), ((6, 5), -5), ((7, 6), -5), ((8, 7), -5), ((10, 9), -5),
      ((11, 10), -5), ((12, 11), -5), ((13, 12), -5), ((14, 13), -5), ((15, 14), -5), ((16, 15),
      -5), ((17, 16), -5)] := by decide
  have h0 : quboBuild 0 =
    [((1, 1), 0), ((2, 2), 0), ((3, 3), 0), ((4, 4), -1), ((5, 5), 0), ((6, 6), 2), ((7, 7), 1),
      ((8, 8), 2), ((0, 0), -1), ((10, 10), -1), ((11, 11), 0), ((12, 12), 1), ((13, 13), -1),
      ((14, 14), 1), ((15, 15), 1), ((16, 16), 0), ((17, 17), 1), ((9, 9), -1), ((0, 9), 0),
      ((0, 10), 0), ((0, 11), 1), ((0, 12), -1), ((0, 13), 1), ((0, 14), -1), ((0, 15), 0), ((0,
      16), 1), ((0, 17), 1), ((1, 9), 0), ((1, 10), -1), ((1, 11), 0), ((1, 12), 1), ((1, 13),
      0), ((1, 14), 1), ((1, 15), -1), ((1, 16), 1), ((1, 17), 0), ((2, 9), 0), ((2, 10), 1),
      ((2, 11), -1), ((2, 12), 0), ((2, 13), 0), ((2, 14), 0), ((2, 15), 2), ((2, 16), 0), ((2,
      17), -1), ((3, 9), 0), ((3, 10), 0), ((3, 11), 1), ((3, 12), 0), ((3, 13), 1), ((3, 14),
      -1), ((3, 15), 0), ((3, 16), -1), ((3, 17), -1), ((4, 9), 1), ((4, 10), 2), ((4, 11), 0),
      ((4, 12), -1), ((4, 13), 0), ((4, 14), 1), ((4, 15), -1), ((4, 16), -2), ((4, 17), -1),
      ((5, 9), 1), ((5, 10), -1), ((5, 11), 0), ((5, 12), 1), ((5, 13), 1), ((5, 14), -1), ((5,
      15), -2), ((5, 16), 0), ((5, 17), 0), ((6, 9), 0), ((6, 10), 0), ((6, 11), 0), ((6, 12),
      -1), ((6, 13), 1), ((6, 14), -1), ((6, 15), 0), ((6, 16), -1), ((6, 17), 0), ((7, 9), 0),
      ((7, 10), 0), ((7, 11), 0), ((7, 12), 1), ((7, 13), -3), ((7, 14), 0), ((7, 15), 1), ((7,
      16), 1), ((7, 17), 0), ((8, 9), -1), ((8, 10), 1), ((8, 11), 0), ((8, 12), -1), ((8, 13),
      0), ((8, 14), 0), ((8, 15), 0), ((8, 16), -1), ((8, 17), 0), ((1, 0), 0), ((2, 1), 0),
      ((3, 2), 0), ((4, 3), 0), ((5, 4), 0), ((6, 5), 0), ((7, 6), 0), ((8, 7), 0), ((10, 9),
      0), ((11, 10), 0), ((12, 11), 0), ((13, 12), 0), ((14, 13), 0), ((15, 14), 0), ((16, 15),
      0), ((17, 16), 0)] := by decide
  have hr : List.range' 1 8 ++ List.range' 10 8 =
      [1, 2, 3, 4, 5, 6, 7, 8, 10, 11, 12, 13, 14, 15, 16, 17] := by decide
  rw [h5, h0]
  unfold violCount ENCODING_BIAS
  rw [hr]
  simp only [quboEnergy, List.map_cons, List.map_nil, List.sum_cons, List.sum_nil,
    violAt_eq, bit_sq]
  norm_num
  ring

/-- Claim C2 (amended): for every sample violating the monotone unary
invariant on at least one axis, the QUBO energy under `_get_qubo` (built
with `ENCODING_BIAS = 5`) exceeds the energy of the *same* bit-vector under
the bias-free coefficients (the identical construction with the bias set to
0) by exactly `ENCODING_BIAS` per violating position, hence by at least
`ENCODING_BIAS` — the sense in which the source docstring says the penalty
"will add at least ENCODING_BIAS to the energy for invalid samples".  The
original claim's baseline (the valid encoding of the "intended"
coordinates) is refuted by `bias_penalty_cex`. -/
theorem bias_penalty_amended (b : Nat → Bool) (h : invalidSample b) :
    quboEnergy _get_qubo b =
      quboEnergy (quboBuild 0) b + ENCODING_BIAS * violCount b ∧
    quboEnergy (quboBuild 0) b + ENCODING_BIAS ≤ quboEnergy _get_qubo b := by
  have hs := energy_split b
  refine ⟨hs, ?_⟩
  rw [hs]
  have hv := violCount_pos b h
  unfold ENCODING_BIAS
  linarith

/-- Witness for `bias_penalty_amended`: the sample with only y-block bit 10
set (bit 9 clear) is invalid; its biased energy is its bias-free energy
plus `5 * 1`. -/
theorem bias_penalty_amended_witness :
    quboEnergy _get_qubo (fun i => decide (i = 10)) =
      quboEnergy (quboBuild 0) (fun i => decide (i = 10)) +
        ENCODING_BIAS * violCount (fun i => decide (i = 10)) ∧
    quboEnergy (quboBuild 0) (fun i => decide (i = 10)) + ENCODING_BIAS ≤
      quboEnergy _get_qubo (fun i => decide (i = 10)) :=
  bias_penalty_amended (fun i => decide (i = 10)) (by decide)

/-- Claim C2, counterexample to the original statement: `cexVec` (x-block
bit 7 set with bit 6 clear, y block holding the exact canonical encoding of
5) is invalid on x and decodes to 5 on y, so its intended y coordinate is 5
under any reading; yet its QUBO energy (2) is *less* than `ENCODING_BIAS`
plus the energy of the canonical encoding of `(x, 5)` for every
`x < 10` — in particular for the intended x under the bit-count reading
(`x = 1`, valid energy `-2`) and under the highest-set-bit reading
(`x = 8`, valid energy `4`).  So an invalid sample need not sit at least
`ENCODING_BIAS` above the valid encoding of its intended coordinates. -/
theorem bias_penalty_cex :
    invalidSample cexVec ∧
    _parse_coord cexVec x_vars = none ∧
    _parse_coord cexVec y_vars = some 5 ∧
    ∀ x < 10,
      quboEnergy _get_qubo cexVec <
        ENCODING_BIAS + quboEnergy _get_qubo (canon x 5) := by
  decide
